import Mathlib

/-!
Verification of the `npms` repository's two utilities:

* the Vue virtual-scroll component (`VirtualScroll.vue`): the windowed
  ("visible range") computation, the derived render quantities, and the
  scroll event handlers;
* the Vite version-manager plugin (`vite-plugin-version-manager`): the
  predicate deciding which `dist` entries the cleanup step deletes.

JavaScript numbers are modelled by rationals (`ℚ`) wherever the code keeps
them finite; a separate small model `JSNum` with `NaN`/`±Infinity` captures
IEEE behaviour for the division-by-zero analysis of `itemHeight = 0`.
-/

namespace VirtualScroll

/-- The component's default buffer: `const defaultBuffer = 5`. -/
def defaultBuffer : ℚ := 5

/-- Props of the component that the windowing computation reads:
`items.length`, `itemHeight`, and the optional `buffer` prop. -/
structure VirtualScrollProps where
  itemsLength : ℕ
  itemHeight : ℚ
  bufferProp : Option ℚ
deriving DecidableEq

/-- The `buffer` computed value: `props.buffer || defaultBuffer`.
JavaScript `||` takes the right operand when the left is falsy, which for a
number prop means `undefined` (modelled `none`) or `0`. -/
def buffer (p : VirtualScrollProps) : ℚ :=
  match p.bufferProp with
  | none => defaultBuffer
  | some b => if b = 0 then defaultBuffer else b

/-- Core arithmetic of the `visibleRange` computed value, with the effective
buffer value passed explicitly (the code reads `buffer.value`):

```
const start = Math.floor(scrollTop.value / props.itemHeight) - buffer.value
const end = Math.ceil((scrollTop.value + actualContainerHeight.value) / props.itemHeight) + buffer.value
return { start: Math.max(0, start), end: Math.min(props.items.length, end) }
```

The result is the pair `(start, end)`. -/
def visibleRangeCore (scrollTop actualContainerHeight itemHeight bufferVal : ℚ)
    (itemsLength : ℕ) : ℚ × ℚ :=
  let start := (⌊scrollTop / itemHeight⌋ : ℚ) - bufferVal
  let stop := (⌈(scrollTop + actualContainerHeight) / itemHeight⌉ : ℚ) + bufferVal
  (max 0 start, min (itemsLength : ℚ) stop)

/-- The `visibleRange` computed value of the component: the core arithmetic
applied to the coalesced buffer. -/
def visibleRange (p : VirtualScrollProps) (scrollTop actualContainerHeight : ℚ) : ℚ × ℚ :=
  visibleRangeCore scrollTop actualContainerHeight p.itemHeight (buffer p) p.itemsLength

/-- The `totalHeight` computed value: `props.items.length * props.itemHeight`. -/
def totalHeight (p : VirtualScrollProps) : ℚ :=
  (p.itemsLength : ℚ) * p.itemHeight

/-- The `offsetY` computed value: `visibleRange.start * props.itemHeight`. -/
def offsetY (p : VirtualScrollProps) (scrollTop actualContainerHeight : ℚ) : ℚ :=
  (visibleRange p scrollTop actualContainerHeight).1 * p.itemHeight

/-- Reactive state of the component that the handlers mutate: the `scrollTop`
ref and the `actualContainerHeight` ref. -/
structure ScrollState where
  scrollTop : ℚ
  actualContainerHeight : ℚ
deriving DecidableEq

/-- `handleScroll`: stores the event target's `scrollTop` into the ref and
emits `visible-change` with the recomputed `visibleRange`.  The returned pair
is (new state, emitted `{start, end}` payload). -/
def handleScroll (p : VirtualScrollProps) (st : ScrollState) (eventScrollTop : ℚ) :
    ScrollState × (ℚ × ℚ) :=
  let st2 : ScrollState := { st with scrollTop := eventScrollTop }
  (st2, visibleRange p st2.scrollTop st2.actualContainerHeight)

/-- `scrollToIndex`: sets `scrollTop` to `index * props.itemHeight` (written
to the element and read back) and emits `visible-change` with the recomputed
`visibleRange`. -/
def scrollToIndex (p : VirtualScrollProps) (st : ScrollState) (index : ℚ) :
    ScrollState × (ℚ × ℚ) :=
  let st2 : ScrollState := { st with scrollTop := index * p.itemHeight }
  (st2, visibleRange p st2.scrollTop st2.actualContainerHeight)

/-- A JavaScript IEEE-754 number as the component sees it: `NaN`, the two
infinities, or a finite value (modelled exactly by a rational; signed zero is
not distinguished, which is irrelevant to the non-negative inputs here). -/
inductive JSNum where
  | nan : JSNum
  | posInf : JSNum
  | negInf : JSNum
  | fin : ℚ → JSNum
deriving DecidableEq

namespace JSNum

/-- JavaScript unary negation. -/
def neg : JSNum → JSNum
  | nan => nan
  | posInf => negInf
  | negInf => posInf
  | fin q => fin (-q)

/-- JavaScript `+`. -/
def add : JSNum → JSNum → JSNum
  | nan, _ => nan
  | _, nan => nan
  | posInf, negInf => nan
  | negInf, posInf => nan
  | posInf, _ => posInf
  | _, posInf => posInf
  | negInf, _ => negInf
  | _, negInf => negInf
  | fin a, fin b => fin (a + b)

/-- JavaScript `-`. -/
def sub (a b : JSNum) : JSNum := add a (neg b)

/-- JavaScript `/` with a positive-zero divisor convention: `0 / 0 = NaN`,
`x / 0 = ±Infinity` by the sign of `x`, finite by finite exact otherwise. -/
def div : JSNum → JSNum → JSNum
  | nan, _ => nan
  | _, nan => nan
  | posInf, posInf => nan
  | posInf, negInf => nan
  | negInf, posInf => nan
  | negInf, negInf => nan
  | posInf, fin b => if b < 0 then negInf else posInf
  | negInf, fin b => if b < 0 then posInf else negInf
  | fin _, posInf => fin 0
  | fin _, negInf => fin 0
  | fin a, fin b =>
    if b = 0 then (if a = 0 then nan else if 0 < a then posInf else negInf)
    else fin (a / b)

/-- JavaScript `Math.floor`. -/
def floor : JSNum → JSNum
  | nan => nan
  | posInf => posInf
  | negInf => negInf
  | fin q => fin (⌊q⌋ : ℚ)

/-- JavaScript `Math.ceil`. -/
def ceil : JSNum → JSNum
  | nan => nan
  | posInf => posInf
  | negInf => negInf
  | fin q => fin (⌈q⌉ : ℚ)

/-- JavaScript `Math.max` (two arguments): `NaN` absorbs. -/
def max2 : JSNum → JSNum → JSNum
  | nan, _ => nan
  | _, nan => nan
  | posInf, _ => posInf
  | _, posInf => posInf
  | negInf, b => b
  | a, negInf => a
  | fin a, fin b => fin (max a b)

/-- JavaScript `Math.min` (two arguments): `NaN` absorbs. -/
def min2 : JSNum → JSNum → JSNum
  | nan, _ => nan
  | _, nan => nan
  | negInf, _ => negInf
  | _, negInf => negInf
  | posInf, b => b
  | a, posInf => a
  | fin a, fin b => fin (min a b)

/-- Whether the value is finite. -/
def isFinite : JSNum → Bool
  | fin _ => true
  | _ => false

end JSNum

/-- The `visibleRange` arithmetic re-read over IEEE `JSNum` values, used to
analyse what the component returns when `itemHeight = 0` (no guard exists in
the code, so the division is performed as-is). -/
def visibleRangeJS (scrollTop actualContainerHeight itemHeight bufferVal : JSNum)
    (itemsLength : ℕ) : JSNum × JSNum :=
  let start := JSNum.sub (JSNum.floor (JSNum.div scrollTop itemHeight)) bufferVal
  let stop := JSNum.add
    (JSNum.ceil (JSNum.div (JSNum.add scrollTop actualContainerHeight) itemHeight)) bufferVal
  (JSNum.max2 (JSNum.fin 0) start, JSNum.min2 (JSNum.fin (itemsLength : ℚ)) stop)

end VirtualScroll

namespace VersionManager

/-- One entry of the `dist` directory listing, as `fs.readdir(..,
{ withFileTypes: true })` presents it: a name and whether it is a directory. -/
structure DirEntry where
  name : String
  isDir : Bool
deriving DecidableEq

/-- Whether `hay` starts with `needle` (character lists). -/
def listStartsWith : List Char → List Char → Bool
  | _, [] => true
  | [], _ :: _ => false
  | a :: as, b :: bs => a == b && listStartsWith as bs

/-- Whether `needle` occurs as a contiguous run inside `hay` (character
lists). -/
def listContainsSub : List Char → List Char → Bool
  | [], needle => needle.isEmpty
  | c :: cs, needle => listStartsWith (c :: cs) needle || listContainsSub cs needle

/-- JavaScript `s.includes(sub)`: substring containment. -/
def jsIncludes (s sub : String) : Bool :=
  listContainsSub s.data sub.data

/-- The cleanup step's exclusion test:
`excludeFromCleanup.some((exclude) => file.name === exclude || file.name.includes(exclude))`. -/
def shouldExclude (excludeFromCleanup : List String) (name : String) : Bool :=
  excludeFromCleanup.any fun e => name == e || jsIncludes name e

/-- The cleanup step's deletion decision for one entry:
`file.isDirectory() && file.name !== currentVersion && !shouldExclude`. -/
def shouldDelete (excludeFromCleanup : List String) (currentVersion : String)
    (f : DirEntry) : Bool :=
  f.isDir && f.name != currentVersion && !(shouldExclude excludeFromCleanup f.name)

end VersionManager

namespace VirtualScroll

/-- The raw stop index `ceil((scrollTop + height) / itemHeight) + buffer` is
non-negative on valid inputs. -/
lemma rawStop_nonneg (scrollTop ach itemHeight bufferVal : ℚ)
    (hh : 0 < itemHeight) (hs : 0 ≤ scrollTop) (ha : 0 ≤ ach) (hb : 0 ≤ bufferVal) :
    0 ≤ (⌈(scrollTop + ach) / itemHeight⌉ : ℚ) + bufferVal := by
  have h1 : (0:ℚ) ≤ (scrollTop + ach) / itemHeight := div_nonneg (by linarith) hh.le
  have h2 : (0:ℤ) ≤ ⌈(scrollTop + ach) / itemHeight⌉ := Int.ceil_nonneg h1
  have h3 : (0:ℚ) ≤ (⌈(scrollTop + ach) / itemHeight⌉ : ℚ) := by exact_mod_cast h2
  linarith

/-- The raw start index never exceeds the raw stop index on valid inputs. -/
lemma rawStart_le_rawStop (scrollTop ach itemHeight bufferVal : ℚ)
    (hh : 0 < itemHeight) (ha : 0 ≤ ach) (hb : 0 ≤ bufferVal) :
    (⌊scrollTop / itemHeight⌋ : ℚ) - bufferVal ≤
      (⌈(scrollTop + ach) / itemHeight⌉ : ℚ) + bufferVal := by
  have hdiv : scrollTop / itemHeight ≤ (scrollTop + ach) / itemHeight := by
    gcongr
    linarith
  have h1 : ⌊scrollTop / itemHeight⌋ ≤ ⌈(scrollTop + ach) / itemHeight⌉ :=
    le_trans (Int.floor_le_ceil _) (Int.ceil_le_ceil hdiv)
  have h2 : (⌊scrollTop / itemHeight⌋ : ℚ) ≤ (⌈(scrollTop + ach) / itemHeight⌉ : ℚ) := by
    exact_mod_cast h1
  linarith

/-- The returned start index is at most the returned stop index, provided the
raw start index does not exceed the item count. -/
lemma visibleRangeCore_fst_le_snd (scrollTop ach itemHeight bufferVal : ℚ)
    (itemsLength : ℕ)
    (hh : 0 < itemHeight) (hs : 0 ≤ scrollTop) (ha : 0 ≤ ach) (hb : 0 ≤ bufferVal)
    (hraw : (⌊scrollTop / itemHeight⌋ : ℚ) - bufferVal ≤ (itemsLength : ℚ)) :
    (visibleRangeCore scrollTop ach itemHeight bufferVal itemsLength).1 ≤
      (visibleRangeCore scrollTop ach itemHeight bufferVal itemsLength).2 := by
  unfold visibleRangeCore
  refine max_le (le_min (Nat.cast_nonneg _)
    (rawStop_nonneg scrollTop ach itemHeight bufferVal hh hs ha hb)) (le_min hraw ?_)
  exact rawStart_le_rawStop scrollTop ach itemHeight bufferVal hh ha hb

end VirtualScroll

open VirtualScroll VersionManager

/-- C1. The claim `0 <= start <= end <= itemCount` for all valid inputs is
refuted by a scroll offset far past the end of the track: at
`scrollOffset = 100000, viewportHeight = 100, itemHeight = 50, buffer = 5,
itemCount = 10` the code yields `start = 1995, end = 10`, so `start > end`
and `start > itemCount`. -/
theorem c1_claim_counterexample :
    visibleRangeCore 100000 100 50 5 10 = (1995, 10) ∧
    ¬ ((visibleRangeCore 100000 100 50 5 10).1 ≤ (visibleRangeCore 100000 100 50 5 10).2) ∧
    ¬ ((visibleRangeCore 100000 100 50 5 10).1 ≤ ((10:ℕ) : ℚ)) := by
  norm_num [visibleRangeCore, max_def, min_def]

/-- C1 (amended). On valid inputs (`itemHeight > 0`, `scrollOffset >= 0`,
`viewportHeight >= 0`, `buffer >= 0`) the range always satisfies
`0 <= start`, `0 <= end <= itemCount`; and `start <= end` holds whenever the
raw start index `floor(scrollOffset/itemHeight) - buffer` does not exceed
`itemCount`. -/
theorem c1_range_bounds (scrollTop ach itemHeight bufferVal : ℚ) (itemsLength : ℕ)
    (hh : 0 < itemHeight) (hs : 0 ≤ scrollTop) (ha : 0 ≤ ach) (hb : 0 ≤ bufferVal) :
    0 ≤ (visibleRangeCore scrollTop ach itemHeight bufferVal itemsLength).1 ∧
    0 ≤ (visibleRangeCore scrollTop ach itemHeight bufferVal itemsLength).2 ∧
    (visibleRangeCore scrollTop ach itemHeight bufferVal itemsLength).2 ≤ (itemsLength : ℚ) ∧
    ((⌊scrollTop / itemHeight⌋ : ℚ) - bufferVal ≤ (itemsLength : ℚ) →
      (visibleRangeCore scrollTop ach itemHeight bufferVal itemsLength).1 ≤
        (visibleRangeCore scrollTop ach itemHeight bufferVal itemsLength).2) := by
  refine ⟨le_max_left _ _,
    le_min (Nat.cast_nonneg _) (rawStop_nonneg scrollTop ach itemHeight bufferVal hh hs ha hb),
    min_le_left _ _,
    fun hraw => visibleRangeCore_fst_le_snd scrollTop ach itemHeight bufferVal itemsLength
      hh hs ha hb hraw⟩

/-- C1 witness: the amended bounds at the concrete spec scenario. -/
theorem c1_range_bounds_witness :
    0 ≤ (visibleRangeCore 1000 400 50 5 10000).1 ∧
    0 ≤ (visibleRangeCore 1000 400 50 5 10000).2 ∧
    (visibleRangeCore 1000 400 50 5 10000).2 ≤ ((10000:ℕ) : ℚ) ∧
    ((⌊(1000:ℚ) / 50⌋ : ℚ) - 5 ≤ ((10000:ℕ) : ℚ) →
      (visibleRangeCore 1000 400 50 5 10000).1 ≤ (visibleRangeCore 1000 400 50 5 10000).2) :=
  c1_range_bounds 1000 400 50 5 10000 (by norm_num) (by norm_num) (by norm_num) (by norm_num)

/-- C2. The claim that `itemCount == 0` forces the result `{0, 0}` regardless
of the other inputs is refuted: at `scrollOffset = 1000, itemHeight = 50,
buffer = 5, viewportHeight = 0, itemCount = 0` the code yields
`start = 15`, not `0`. -/
theorem c2_claim_counterexample :
    (visibleRangeCore 1000 0 50 5 0).1 = 15 ∧ (15:ℚ) ≠ 0 := by
  norm_num [visibleRangeCore, max_def, min_def]

/-- C2 (amended). On valid inputs with `itemCount == 0` the returned `end` is
always `0`, and the full result is `{0, 0}` whenever additionally
`floor(scrollOffset/itemHeight) <= buffer` (in particular whenever the scroll
offset is `0`); for larger scroll offsets `start` is positive. -/
theorem c2_empty_items (scrollTop ach itemHeight bufferVal : ℚ)
    (hh : 0 < itemHeight) (hs : 0 ≤ scrollTop) (ha : 0 ≤ ach) (hb : 0 ≤ bufferVal) :
    (visibleRangeCore scrollTop ach itemHeight bufferVal 0).2 = 0 ∧
    ((⌊scrollTop / itemHeight⌋ : ℚ) ≤ bufferVal →
      visibleRangeCore scrollTop ach itemHeight bufferVal 0 = (0, 0)) := by
  have hstop := rawStop_nonneg scrollTop ach itemHeight bufferVal hh hs ha hb
  have hsnd : (visibleRangeCore scrollTop ach itemHeight bufferVal 0).2 = 0 := by
    unfold visibleRangeCore
    simpa using min_eq_left hstop
  refine ⟨hsnd, fun hfloor => ?_⟩
  have hsub : (⌊scrollTop / itemHeight⌋ : ℚ) - bufferVal ≤ 0 := by linarith
  have hfst : (visibleRangeCore scrollTop ach itemHeight bufferVal 0).1 = 0 := by
    unfold visibleRangeCore
    simpa using max_eq_left hsub
  exact Prod.ext hfst hsnd

/-- C2 witness: the amended statement at `scrollOffset = 0, viewportHeight = 0,
itemHeight = 50, buffer = 5, itemCount = 0`. -/
theorem c2_empty_items_witness :
    (visibleRangeCore 0 0 50 5 0).2 = 0 ∧
    ((⌊(0:ℚ) / 50⌋ : ℚ) ≤ 5 → visibleRangeCore 0 0 50 5 0 = (0, 0)) :=
  c2_empty_items 0 0 50 5 (by norm_num) (by norm_num) (by norm_num) (by norm_num)

/-- C4. The claim that a clamped `end <= start` always comes with
`start == end` is refuted: at `scrollOffset = 50000, viewportHeight = 0,
itemHeight = 50, buffer = 0, itemCount = 20` the code yields
`start = 1000, end = 20`, so `end <= start` with `start ≠ end`. -/
theorem c4_claim_counterexample :
    (visibleRangeCore 50000 0 50 0 20).2 ≤ (visibleRangeCore 50000 0 50 0 20).1 ∧
    (visibleRangeCore 50000 0 50 0 20).1 ≠ (visibleRangeCore 50000 0 50 0 20).2 := by
  norm_num [visibleRangeCore, max_def, min_def]

/-- C4 (amended). On valid inputs whose raw start index
`floor(scrollOffset/itemHeight) - buffer` does not exceed `itemCount` (true
for every scroll position within the track), a clamped `end <= start` forces
the empty range `start == end`, and this is an ordinary result, not an
error; without that proviso `end` can be strictly below `start`. -/
theorem c4_empty_range (scrollTop ach itemHeight bufferVal : ℚ) (itemsLength : ℕ)
    (hh : 0 < itemHeight) (hs : 0 ≤ scrollTop) (ha : 0 ≤ ach) (hb : 0 ≤ bufferVal)
    (hraw : (⌊scrollTop / itemHeight⌋ : ℚ) - bufferVal ≤ (itemsLength : ℚ))
    (hle : (visibleRangeCore scrollTop ach itemHeight bufferVal itemsLength).2 ≤
      (visibleRangeCore scrollTop ach itemHeight bufferVal itemsLength).1) :
    (visibleRangeCore scrollTop ach itemHeight bufferVal itemsLength).1 =
      (visibleRangeCore scrollTop ach itemHeight bufferVal itemsLength).2 :=
  le_antisymm
    (visibleRangeCore_fst_le_snd scrollTop ach itemHeight bufferVal itemsLength
      hh hs ha hb hraw) hle

/-- C4 witness: zero viewport height and zero buffer at
`scrollOffset = 100, itemHeight = 50, itemCount = 10` give the empty range
`{2, 2}`. -/
theorem c4_empty_range_witness :
    ((⌊(100:ℚ) / 50⌋ : ℚ) - 0 ≤ ((10:ℕ) : ℚ)) ∧
    ((visibleRangeCore 100 0 50 0 10).2 ≤ (visibleRangeCore 100 0 50 0 10).1) ∧
    (visibleRangeCore 100 0 50 0 10).1 = (visibleRangeCore 100 0 50 0 10).2 :=
  ⟨by norm_num, by norm_num [visibleRangeCore, max_def, min_def],
    c4_empty_range 100 0 50 0 10 (by norm_num) (by norm_num) (by norm_num) (by norm_num)
      (by norm_num) (by norm_num [visibleRangeCore, max_def, min_def])⟩

/-- C5. The spec scenario `itemCount=10000, itemHeight=50, viewportHeight=400,
buffer=5, scrollOffset=1000` yields the range `{15, 33}`, pixel offset `750`
and total track height `500000`. -/
theorem c5_spec_scenario :
    visibleRange ⟨10000, 50, some 5⟩ 1000 400 = (15, 33) ∧
    offsetY ⟨10000, 50, some 5⟩ 1000 400 = 750 ∧
    totalHeight ⟨10000, 50, some 5⟩ = 500000 := by
  norm_num [visibleRange, visibleRangeCore, offsetY, totalHeight, buffer, defaultBuffer,
    max_def, min_def]

/-- C6. For every props/state combination, `offsetY` is exactly
`visibleRange.start * itemHeight` and `totalHeight` is exactly
`items.length * itemHeight`; over exact rational arithmetic there is no
rounding drift. -/
theorem c6_render_plan (p : VirtualScrollProps) (scrollTop ach : ℚ) :
    offsetY p scrollTop ach = (visibleRange p scrollTop ach).1 * p.itemHeight ∧
    totalHeight p = (p.itemsLength : ℚ) * p.itemHeight :=
  ⟨rfl, rfl⟩

/-- C7. With all other inputs fixed and `itemHeight > 0`, increasing the
scroll offset never decreases the returned `start` or `end`. -/
theorem c7_scroll_monotone (ach itemHeight bufferVal : ℚ) (itemsLength : ℕ)
    (s1 s2 : ℚ) (hh : 0 < itemHeight) (hs : s1 ≤ s2) :
    (visibleRangeCore s1 ach itemHeight bufferVal itemsLength).1 ≤
      (visibleRangeCore s2 ach itemHeight bufferVal itemsLength).1 ∧
    (visibleRangeCore s1 ach itemHeight bufferVal itemsLength).2 ≤
      (visibleRangeCore s2 ach itemHeight bufferVal itemsLength).2 := by
  have hdiv1 : s1 / itemHeight ≤ s2 / itemHeight := by gcongr
  have hdiv2 : (s1 + ach) / itemHeight ≤ (s2 + ach) / itemHeight := by
    gcongr
  have hfl : (⌊s1 / itemHeight⌋ : ℚ) ≤ (⌊s2 / itemHeight⌋ : ℚ) := by
    exact_mod_cast Int.floor_le_floor hdiv1
  have hcl : (⌈(s1 + ach) / itemHeight⌉ : ℚ) ≤ (⌈(s2 + ach) / itemHeight⌉ : ℚ) := by
    exact_mod_cast Int.ceil_le_ceil hdiv2
  unfold visibleRangeCore
  exact ⟨max_le_max le_rfl (sub_le_sub_right hfl _), min_le_min le_rfl (add_le_add_right hcl _)⟩

/-- C7 witness: monotonicity at the concrete offsets `1000 <= 2000` with
`itemHeight = 50, viewportHeight = 400, buffer = 5, itemCount = 10000`. -/
theorem c7_scroll_monotone_witness :
    (visibleRangeCore 1000 400 50 5 10000).1 ≤ (visibleRangeCore 2000 400 50 5 10000).1 ∧
    (visibleRangeCore 1000 400 50 5 10000).2 ≤ (visibleRangeCore 2000 400 50 5 10000).2 :=
  c7_scroll_monotone 400 50 5 10000 1000 2000 (by norm_num) (by norm_num)

namespace VirtualScroll

/-- On finite inputs with a non-zero `itemHeight`, the IEEE reading of the
`visibleRange` arithmetic agrees with the exact rational reading, so the two
models describe the same source code. -/
lemma visibleRangeJS_agrees (scrollTop ach itemHeight bufferVal : ℚ) (itemsLength : ℕ)
    (hh : itemHeight ≠ 0) :
    visibleRangeJS (.fin scrollTop) (.fin ach) (.fin itemHeight) (.fin bufferVal)
        itemsLength =
      (.fin (visibleRangeCore scrollTop ach itemHeight bufferVal itemsLength).1,
        .fin (visibleRangeCore scrollTop ach itemHeight bufferVal itemsLength).2) := by
  simp [visibleRangeJS, visibleRangeCore, JSNum.add, JSNum.div, JSNum.sub, JSNum.neg,
    JSNum.floor, JSNum.ceil, JSNum.max2, JSNum.min2, hh, sub_eq_add_neg]

end VirtualScroll

/-- C3. The code contains no `itemHeight` guard: at `itemHeight = 0` (with
`scrollOffset = 0, viewportHeight = 0, buffer = 5, itemCount = 10`) the IEEE
arithmetic of `visibleRange` produces the non-finite range
`{start: NaN, end: NaN}` instead of failing with an InvalidInput error. -/
theorem c3_zero_item_height_nan :
    visibleRangeJS (.fin 0) (.fin 0) (.fin 0) (.fin 5) 10 = (.nan, .nan) ∧
    JSNum.isFinite .nan = false := by
  constructor
  · simp [visibleRangeJS, JSNum.add, JSNum.div, JSNum.sub, JSNum.neg, JSNum.floor,
      JSNum.ceil, JSNum.max2, JSNum.min2]
  · rfl

/-- C8. For every props/state and every index, with `itemHeight > 0`,
`scrollToIndex(index)` stores the scroll offset `index * itemHeight` and
produces exactly the state and the emitted `visible-change` payload of a
user scroll event delivering that offset. -/
theorem c8_scroll_to_index (p : VirtualScrollProps) (st : ScrollState) (index : ℚ)
    (_hh : 0 < p.itemHeight) :
    scrollToIndex p st index = handleScroll p st (index * p.itemHeight) ∧
    (scrollToIndex p st index).1.scrollTop = index * p.itemHeight :=
  ⟨rfl, rfl⟩

/-- C8 witness: `scrollToIndex(100)` with `itemHeight = 50` behaves as a user
scroll to offset `100 * 50 = 5000`. -/
theorem c8_scroll_to_index_witness :
    scrollToIndex ⟨10000, 50, none⟩ ⟨0, 400⟩ 100 =
      handleScroll ⟨10000, 50, none⟩ ⟨0, 400⟩ (100 * 50) ∧
    (scrollToIndex ⟨10000, 50, none⟩ ⟨0, 400⟩ 100).1.scrollTop = 100 * 50 :=
  c8_scroll_to_index ⟨10000, 50, none⟩ ⟨0, 400⟩ 100 (by norm_num)

/-- C9. The `buffer` prop is coalesced by JavaScript `||`: both an omitted
prop and an explicit `0` yield the default `5`, so a zero overscan cannot be
requested — the range computed with `buffer = 0` always equals the range
computed with `buffer = 5`. -/
theorem c9_buffer_default (itemsLength : ℕ) (itemHeight scrollTop ach : ℚ) :
    buffer ⟨itemsLength, itemHeight, some 0⟩ = defaultBuffer ∧
    buffer ⟨itemsLength, itemHeight, none⟩ = defaultBuffer ∧
    visibleRange ⟨itemsLength, itemHeight, some 0⟩ scrollTop ach =
      visibleRange ⟨itemsLength, itemHeight, some 5⟩ scrollTop ach := by
  refine ⟨by simp [buffer], rfl, ?_⟩
  norm_num [visibleRange, buffer, defaultBuffer]

/-- C10. The cleanup step deletes a `dist` entry exactly when it is a
directory whose name differs from the current version and whose name neither
equals nor contains (as a substring) any entry of `excludeFromCleanup`; in
particular the current-version directory and plain files survive, and any
directory whose name contains an excluded string survives. -/
theorem c10_cleanup_decision (excludeFromCleanup : List String) (currentVersion : String)
    (f : DirEntry) :
    shouldDelete excludeFromCleanup currentVersion f = true ↔
      (f.isDir = true ∧ f.name ≠ currentVersion ∧
        ¬ ∃ e ∈ excludeFromCleanup, (f.name = e ∨ jsIncludes f.name e = true)) := by
  simp [shouldDelete, shouldExclude, List.any_eq_true, Bool.and_eq_true, bne_iff_ne,
    Bool.not_eq_true', Bool.or_eq_true, beq_iff_eq, not_exists, not_or]
  tauto
